import Mathlib

/-!
Verification development for the Kaspa Analytics Pro analytics core
(src/utils/data.py and src/utils/auth.py), shallowly embedded in Lean 4.

Conventions of the embedding:
* A pandas DataFrame of hourly rows is a `List (PricePoint α)`; the price,
  volume, high, low, open, close columns are the record fields, and the
  timestamp column is an integer hour count (hours since an arbitrary epoch,
  matching the hourly granularity of the generated data).
* Analytics that use only field arithmetic (market stats, moving averages,
  RSI, the tier filter) are embedded over `ℚ` so they are executable; the
  synthetic generator and the power-law statistics, which use exp, sin, log,
  rpow and sqrt, take values in `ℝ`.
* numpy NaN cells (the head of a rolling window) are `Option.none`.
* The draws of the numpy PRNG seeded with 42 are modelled by an explicit
  `NoiseStreams` parameter: for a fixed request the generator consumes, for
  each output position, one normal draw, one lognormal draw and two uniform
  draws, so each stream is a fixed function of the position.  Everything
  else in the generator is translated from the source.
-/

/-- One row of the hourly price DataFrame built by fetch_kaspa_price_data. -/
structure PricePoint (α : Type) where
  timestamp : ℤ
  price : α
  volume : α
  high : α
  low : α
  open_ : α
  close : α
deriving DecidableEq, Repr

/-- Dummy row used as the default of list lookups over `ℚ`. -/
def dummyQ : PricePoint ℚ := ⟨0, 0, 0, 0, 0, 0, 0⟩

/-- Dummy row used as the default of list lookups over `ℝ`. -/
def dummyR : PricePoint ℝ := ⟨0, 0, 0, 0, 0, 0, 0⟩

/-! ## Feature access (src/utils/auth.py, check_feature_access) -/

/-- The static dict feature_requirements of check_feature_access
(src/utils/auth.py lines 292-302), as an association list. -/
def feature_requirements : List (String × List String) :=
  [("basic_charts", ["public", "free", "premium", "pro"]),
   ("advanced_charts", ["premium", "pro"]),
   ("power_law_basic", ["free", "premium", "pro"]),
   ("power_law_advanced", ["premium", "pro"]),
   ("network_metrics", ["premium", "pro"]),
   ("data_export", ["premium", "pro"]),
   ("api_access", ["pro"]),
   ("custom_models", ["pro"]),
   ("admin_panel", ["pro"])]

/-- check_feature_access (src/utils/auth.py lines 290-305):
feature_requirements.get(feature_name, ["pro"]) followed by a membership
test of the user subscription. -/
def check_feature_access (feature_name user_subscription : String) : Bool :=
  let required_subscriptions :=
    (feature_requirements.lookup feature_name).getD ["pro"]
  required_subscriptions.contains user_subscription

/-- The admin-panel page gate (src/pages/6_Admin_Panel.py line 24 and
src/utils/ui.py line 447): access requires the username to be the literal
admin identity, independently of the tier check. -/
def admin_panel_page_allows (username : String) : Bool :=
  username == "admin"

/-! ## Subscription data filter (src/utils/data.py, filter_data_by_subscription) -/

/-- pandas DataFrame.tail(n): the trailing min(n, len) rows. -/
def listTail {α : Type} (l : List α) (n : ℕ) : List α :=
  l.drop (l.length - n)

/-- The static dict data_limits of filter_data_by_subscription
(src/utils/data.py lines 264-269); 7*24 = 168 and 30*24 = 720. -/
def data_limits : List (String × ℕ) :=
  [("public", 7 * 24), ("free", 30 * 24), ("premium", 0), ("pro", 0)]

/-- filter_data_by_subscription (src/utils/data.py lines 259-276). -/
def filter_data_by_subscription (df : List (PricePoint ℚ))
    (subscription_level : String) : List (PricePoint ℚ) :=
  if df.isEmpty then df
  else
    let limit := (data_limits.lookup subscription_level).getD (7 * 24)
    if limit = 0 then df else listTail df limit

/-! ## Market statistics (src/utils/data.py, get_market_stats) -/

/-- The record returned by get_market_stats (src/utils/data.py lines
174-186).  The two network-sourced fields (hash_rate, active_addresses)
come from the impure, wall-clock-seeded fetch_network_metrics and are not
part of the pure calculation, so they are not modelled. -/
structure MarketStats where
  current_price : ℚ
  price_change_24h : ℚ
  price_change_7d : ℚ
  price_change_30d : ℚ
  volume_24h : ℚ
  volume_7d_avg : ℚ
  high_24h : ℚ
  low_24h : ℚ
  market_cap : ℚ
deriving DecidableEq, Repr

/-- pandas Series.iloc[-k] on a length-n column: the element at index n - k. -/
def ilocNeg (l : List ℚ) (k : ℕ) : ℚ :=
  l.getD (l.length - k) 0

/-- Maximum of a column, defaulting to the head (pandas .max() of a
nonempty column). -/
def colMax (l : List ℚ) : ℚ := l.foldr max (l.headD 0)

/-- Minimum of a column, defaulting to the head (pandas .min() of a
nonempty column). -/
def colMin (l : List ℚ) : ℚ := l.foldr min (l.headD 0)

/-- get_market_stats (src/utils/data.py lines 143-190).  An empty frame
returns the empty dict, modelled as `none`.  Note that when the series has
at most h points the reference price for horizon h is current_price itself
(the source binds `price_1d = ... if len(df) > 24 else current_price`). -/
def get_market_stats (df : List (PricePoint ℚ)) : Option MarketStats :=
  if df.isEmpty then none
  else
    let prices := df.map (·.price)
    let volumes := df.map (·.volume)
    let current_price := ilocNeg prices 1
    let price_1d := if 24 < df.length then ilocNeg prices 24 else current_price
    let price_7d := if 168 < df.length then ilocNeg prices 168 else current_price
    let price_30d := if 720 < df.length then ilocNeg prices 720 else current_price
    some
      { current_price := current_price
        price_change_24h := (current_price - price_1d) / price_1d * 100
        price_change_7d := (current_price - price_7d) / price_7d * 100
        price_change_30d := (current_price - price_30d) / price_30d * 100
        volume_24h := (listTail volumes 24).sum
        volume_7d_avg := (listTail volumes 168).sum / (listTail volumes 168).length
        high_24h := colMax (listTail (df.map (·.high)) 24)
        low_24h := colMin (listTail (df.map (·.low)) 24)
        market_cap := current_price * 18.5 }

/-- Concrete two-row frame for the C1 analysis: prices 1 then 2. -/
def c1df : List (PricePoint ℚ) :=
  [{ dummyQ with timestamp := 0, price := 1 },
   { dummyQ with timestamp := 1, price := 2 }]

/-! ## Theorems for claims C1, C2, C9, C10 -/

/-- Claim C1, counterexample: on the two-point series with prices 1 then 2
(length 2, hence at most 24), get_market_stats reports price_change_24h = 0
even though the current price 2 differs from the first (earliest) price 1.
This refutes the stated degrade policy that the 24h reference is the first
point, with a zero change only when current equals that first point. -/
theorem C1_counterexample :
    ((get_market_stats c1df).map (·.price_change_24h)) = some 0 ∧
      (c1df.map (·.price)).getLastD 0 ≠ (c1df.map (·.price)).headD 0 := by
  constructor
  · rw [get_market_stats, if_neg (by decide)]
    simp only [Option.map_some', Option.some_inj]
    norm_num [c1df, dummyQ, ilocNeg, List.getD]
  · decide

/-- Claim C1 (amended): for every non-empty series and each horizon
h in 24, 168, 720, when the series has more than h points the reference is
the h-th point from the end (iloc[-h], index len - h) and the reported
change is (current - ref) / ref * 100; when the series has at most h points
the reference is the current (last) price itself, so the reported change
for that horizon is exactly 0 — in particular price_change_24h = 0 on every
series of length at most 24, whatever its first point is. -/
theorem C1_market_stats (df : List (PricePoint ℚ)) (hne : df ≠ []) :
    ((get_market_stats df).map (·.current_price)) =
        some ((df.map (·.price)).getLastD 0) ∧
    ((get_market_stats df).map (·.price_change_24h)) =
        some (if 24 < df.length then
          ((df.map (·.price)).getLastD 0 - ilocNeg (df.map (·.price)) 24) /
            ilocNeg (df.map (·.price)) 24 * 100
          else 0) ∧
    ((get_market_stats df).map (·.price_change_7d)) =
        some (if 168 < df.length then
          ((df.map (·.price)).getLastD 0 - ilocNeg (df.map (·.price)) 168) /
            ilocNeg (df.map (·.price)) 168 * 100
          else 0) ∧
    ((get_market_stats df).map (·.price_change_30d)) =
        some (if 720 < df.length then
          ((df.map (·.price)).getLastD 0 - ilocNeg (df.map (·.price)) 720) /
            ilocNeg (df.map (·.price)) 720 * 100
          else 0) := by
  have hempty : df.isEmpty = false := by
    cases df with
    | nil => exact absurd rfl hne
    | cons a l => rfl
  have hlast : ilocNeg (df.map (·.price)) 1 = (df.map (·.price)).getLastD 0 := by
    unfold ilocNeg
    cases hdp : df.map (·.price) with
    | nil =>
      simp at hdp
      exact absurd hdp hne
    | cons a l =>
      rw [List.getLastD_eq_getLast?, List.getLast?_eq_getElem?]
      simp [List.getD_eq_getElem?_getD]
  rw [get_market_stats, if_neg (by rw [hempty]; exact Bool.false_ne_true)]
  refine ⟨?_, ?_, ?_, ?_⟩
  · simp only [Option.map_some', Option.some_inj]
    exact hlast
  · simp only [Option.map_some', Option.some_inj]
    by_cases h : 24 < df.length
    · simp only [if_pos h]
      rw [hlast]
    · simp only [if_neg h]
      rw [sub_self, zero_div, zero_mul]
  · simp only [Option.map_some', Option.some_inj]
    by_cases h : 168 < df.length
    · simp only [if_pos h]
      rw [hlast]
    · simp only [if_neg h]
      rw [sub_self, zero_div, zero_mul]
  · simp only [Option.map_some', Option.some_inj]
    by_cases h : 720 < df.length
    · simp only [if_pos h]
      rw [hlast]
    · simp only [if_neg h]
      rw [sub_self, zero_div, zero_mul]

/-- Witness for C1_market_stats at the concrete two-row frame. -/
theorem C1_market_stats_witness :
    ((get_market_stats c1df).map (·.price_change_24h)) =
      some (if 24 < c1df.length then
        ((c1df.map (·.price)).getLastD 0 - ilocNeg (c1df.map (·.price)) 24) /
          ilocNeg (c1df.map (·.price)) 24 * 100
        else 0) :=
  (C1_market_stats c1df (by decide)).2.1

/-- Claim C2: the entitlement lookup returns true exactly when the tier is
in the enumerated set of the feature, for each of the nine features
(stated for every tier string: tiers outside the listed set, including
strings outside the four known tiers, are rejected); and the admin-panel
page gate additionally requires the specific admin identity, not just the
tier. -/
theorem C2_feature_table :
    (∀ t, check_feature_access "basic_charts" t =
        (["public", "free", "premium", "pro"] : List String).contains t) ∧
    (∀ t, check_feature_access "advanced_charts" t =
        (["premium", "pro"] : List String).contains t) ∧
    (∀ t, check_feature_access "power_law_basic" t =
        (["free", "premium", "pro"] : List String).contains t) ∧
    (∀ t, check_feature_access "power_law_advanced" t =
        (["premium", "pro"] : List String).contains t) ∧
    (∀ t, check_feature_access "network_metrics" t =
        (["premium", "pro"] : List String).contains t) ∧
    (∀ t, check_feature_access "data_export" t =
        (["premium", "pro"] : List String).contains t) ∧
    (∀ t, check_feature_access "api_access" t =
        (["pro"] : List String).contains t) ∧
    (∀ t, check_feature_access "custom_models" t =
        (["pro"] : List String).contains t) ∧
    (∀ t, check_feature_access "admin_panel" t =
        (["pro"] : List String).contains t) ∧
    (∀ u, admin_panel_page_allows u = true ↔ u = "admin") := by
  refine ⟨fun t => rfl, fun t => rfl, fun t => rfl, fun t => rfl, fun t => rfl,
    fun t => rfl, fun t => rfl, fun t => rfl, fun t => rfl, fun u => ?_⟩
  unfold admin_panel_page_allows
  exact beq_iff_eq

/-- Claim C9: a feature name outside the nine enumerated keys falls back to
the dict default ["pro"], so access is granted exactly to the pro tier. -/
theorem C9_unknown_feature (f : String)
    (hf : f ∉ ["basic_charts", "advanced_charts", "power_law_basic",
      "power_law_advanced", "network_metrics", "data_export", "api_access",
      "custom_models", "admin_panel"]) :
    ∀ t, check_feature_access f t = (t == "pro") := by
  intro t
  simp only [List.mem_cons, List.not_mem_nil, or_false, not_or] at hf
  obtain ⟨h1, h2, h3, h4, h5, h6, h7, h8, h9⟩ := hf
  have e1 := beq_eq_false_iff_ne.mpr h1
  have e2 := beq_eq_false_iff_ne.mpr h2
  have e3 := beq_eq_false_iff_ne.mpr h3
  have e4 := beq_eq_false_iff_ne.mpr h4
  have e5 := beq_eq_false_iff_ne.mpr h5
  have e6 := beq_eq_false_iff_ne.mpr h6
  have e7 := beq_eq_false_iff_ne.mpr h7
  have e8 := beq_eq_false_iff_ne.mpr h8
  have e9 := beq_eq_false_iff_ne.mpr h9
  unfold check_feature_access feature_requirements
  simp only [List.lookup, e1, e2, e3, e4, e5, e6, e7, e8, e9,
    Option.getD_none]
  cases h : t == "pro"
  · simp [List.contains, List.elem, h]
  · simp [List.contains, List.elem, h]

/-- Witness for C9_unknown_feature at a concrete unknown feature name. -/
theorem C9_unknown_feature_witness :
    "frontier_models" ∉ ["basic_charts", "advanced_charts", "power_law_basic",
      "power_law_advanced", "network_metrics", "data_export", "api_access",
      "custom_models", "admin_panel"] ∧
      check_feature_access "frontier_models" "pro" = true ∧
      check_feature_access "frontier_models" "premium" = false :=
  ⟨by decide,
   by rw [C9_unknown_feature "frontier_models" (by decide) "pro"]; rfl,
   by rw [C9_unknown_feature "frontier_models" (by decide) "premium"]; rfl⟩

/-- Claim C10: the subscription filter returns the input unchanged for
premium and pro, the trailing min(168, len) rows for public and for any
unrecognized tier string, and the trailing min(720, len) rows for free;
the result is always a suffix of the input and never longer than it. -/
theorem C10_filter_data (df : List (PricePoint ℚ)) :
    filter_data_by_subscription df "premium" = df ∧
    filter_data_by_subscription df "pro" = df ∧
    filter_data_by_subscription df "public" = df.drop (df.length - 168) ∧
    (filter_data_by_subscription df "public").length = min 168 df.length ∧
    filter_data_by_subscription df "free" = df.drop (df.length - 720) ∧
    (filter_data_by_subscription df "free").length = min 720 df.length ∧
    (∀ s, s ∉ ["public", "free", "premium", "pro"] →
      filter_data_by_subscription df s = df.drop (df.length - 168)) ∧
    (∀ s, (filter_data_by_subscription df s).IsSuffix df ∧
      (filter_data_by_subscription df s).length ≤ df.length) := by
  have hdrop : ∀ n : ℕ, (df.drop (df.length - n)).length = min n df.length := by
    intro n
    rw [List.length_drop]
    omega
  have hcase : ∀ s, filter_data_by_subscription df s = df ∨
      ∃ n : ℕ, filter_data_by_subscription df s = df.drop (df.length - n) := by
    intro s
    unfold filter_data_by_subscription
    by_cases he : df.isEmpty
    · exact Or.inl (by rw [if_pos he])
    · rw [if_neg he]
      by_cases hz : ((data_limits.lookup s).getD (7 * 24)) = 0
      · exact Or.inl (by rw [if_pos hz])
      · exact Or.inr ⟨_, by rw [if_neg hz]; rfl⟩
  have hlpub : (data_limits.lookup "public").getD (7 * 24) = 168 := by decide
  have hlfree : (data_limits.lookup "free").getD (7 * 24) = 720 := by decide
  have hlprem : (data_limits.lookup "premium").getD (7 * 24) = 0 := by decide
  have hlpro : (data_limits.lookup "pro").getD (7 * 24) = 0 := by decide
  have hpub : filter_data_by_subscription df "public" = df.drop (df.length - 168) := by
    unfold filter_data_by_subscription
    by_cases he : df.isEmpty
    · rw [if_pos he]
      have : df = [] := List.isEmpty_iff.mp he
      simp [this]
    · rw [if_neg he, hlpub, if_neg (by omega)]
      rfl
  have hfree : filter_data_by_subscription df "free" = df.drop (df.length - 720) := by
    unfold filter_data_by_subscription
    by_cases he : df.isEmpty
    · rw [if_pos he]
      have : df = [] := List.isEmpty_iff.mp he
      simp [this]
    · rw [if_neg he, hlfree, if_neg (by omega)]
      rfl
  refine ⟨?_, ?_, hpub, by rw [hpub]; exact hdrop 168, hfree,
    by rw [hfree]; exact hdrop 720, ?_, ?_⟩
  · unfold filter_data_by_subscription
    by_cases he : df.isEmpty
    · rw [if_pos he]
    · rw [if_neg he, hlprem, if_pos rfl]
  · unfold filter_data_by_subscription
    by_cases he : df.isEmpty
    · rw [if_pos he]
    · rw [if_neg he, hlpro, if_pos rfl]
  · intro s hs
    simp only [List.mem_cons, List.not_mem_nil, or_false, not_or] at hs
    obtain ⟨hs1, hs2, hs3, hs4⟩ := hs
    have e1 := beq_eq_false_iff_ne.mpr hs1
    have e2 := beq_eq_false_iff_ne.mpr hs2
    have e3 := beq_eq_false_iff_ne.mpr hs3
    have e4 := beq_eq_false_iff_ne.mpr hs4
    unfold filter_data_by_subscription
    by_cases he : df.isEmpty
    · rw [if_pos he]
      have : df = [] := List.isEmpty_iff.mp he
      simp [this]
    · rw [if_neg he]
      have hl : (data_limits.lookup s).getD (7 * 24) = 168 := by
        unfold data_limits
        simp only [List.lookup, e1, e2, e3, e4, Option.getD_none]
      rw [hl, if_neg (by omega)]
      rfl
  · intro s
    rcases hcase s with h | ⟨n, h⟩
    · rw [h]
      exact ⟨List.suffix_refl df, le_refl _⟩
    · rw [h]
      refine ⟨List.drop_suffix _ _, ?_⟩
      rw [List.length_drop]
      omega

/-! ## Technical indicators (src/utils/data.py, get_technical_indicators) -/

/-- Value at index i of a map over List.range. -/
theorem getD_map_range {α : Type} (f : ℕ → α) {n i : ℕ} (hi : i < n) (d : α) :
    ((List.range n).map f).getD i d = f i := by
  have h : i < ((List.range n).map f).length := by simpa using hi
  rw [List.getD_eq_getElem _ _ h]
  simp

/-- The price column of the frame. -/
def pricesOf (df : List (PricePoint ℚ)) : List ℚ := df.map (·.price)

/-- pandas Series.rolling(window=w).mean(): NaN for the first w - 1
positions, then the arithmetic mean of the trailing w entries. -/
def rollingMean (w : ℕ) (l : List ℚ) : List (Option ℚ) :=
  (List.range l.length).map fun i =>
    if i + 1 < w then none else some (((l.drop (i + 1 - w)).take w).sum / w)

/-- pandas Series.rolling(window=w).std(): NaN for the first w - 1
positions, then the sample standard deviation (ddof = 1) of the trailing
w entries. -/
noncomputable def rollingStd (w : ℕ) (l : List ℚ) : List (Option ℝ) :=
  (List.range l.length).map fun i =>
    if i + 1 < w then none
    else
      some (Real.sqrt
        ((((l.drop (i + 1 - w)).take w).map
            (fun x => ((x : ℝ) - ((((l.drop (i + 1 - w)).take w).sum : ℚ) : ℝ) / w) ^ 2)).sum /
          (w - 1)))

/-- pandas Series.ewm(span=s).mean() with the default adjust=True: the
weighted average of the history with weights (1 - a)^j, a = 2 / (s + 1). -/
def emaAdjusted (span : ℕ) (l : List ℚ) : List ℚ :=
  (List.range l.length).map fun i =>
    (∑ j ∈ Finset.range (i + 1), (1 - 2 / ((span : ℚ) + 1)) ^ j * l.getD (i - j) 0) /
      (∑ j ∈ Finset.range (i + 1), (1 - 2 / ((span : ℚ) + 1)) ^ j)

/-- numpy diff: one fewer entry, x[i+1] - x[i]. -/
def priceDiffs (l : List ℚ) : List ℚ :=
  (List.range (l.length - 1)).map fun i => l.getD (i + 1) 0 - l.getD i 0

/-- numpy where(changes > 0, changes, 0). -/
def gainsOf (prices : List ℚ) : List ℚ :=
  (priceDiffs prices).map fun d => if 0 < d then d else 0

/-- numpy where(changes < 0, -changes, 0). -/
def lossesOf (prices : List ℚ) : List ℚ :=
  (priceDiffs prices).map fun d => if d < 0 then -d else 0

/-- The RSI series (src/utils/data.py lines 300-309): rolling 14-step
means of gains and losses over the diff array, rs = avg_gain /
(avg_loss + 1e-10), rsi = 100 - 100 / (1 + rs); NaN while either rolling
mean is undefined. -/
def rsiList (prices : List ℚ) : List (Option ℚ) :=
  (List.range (priceDiffs prices).length).map fun i =>
    match (rollingMean 14 (gainsOf prices)).getD i none,
        (rollingMean 14 (lossesOf prices)).getD i none with
    | some g, some l => some (100 - 100 / (1 + g / (l + 1 / 10000000000)))
    | _, _ => none

/-- MACD line: ema_12 - ema_26, elementwise. -/
def macdLineOf (prices : List ℚ) : List ℚ :=
  (List.range prices.length).map fun i =>
    (emaAdjusted 12 prices).getD i 0 - (emaAdjusted 26 prices).getD i 0

/-- MACD signal: 9-span adjusted EMA of the MACD line. -/
def macdSignalOf (prices : List ℚ) : List ℚ :=
  emaAdjusted 9 (macdLineOf prices)

/-- MACD histogram: line minus signal, elementwise. -/
def macdHistogramOf (prices : List ℚ) : List ℚ :=
  (List.range prices.length).map fun i =>
    (macdLineOf prices).getD i 0 - (macdSignalOf prices).getD i 0

/-- Bollinger upper band: sma_20 + 2 rolling standard deviations, NaN
where either is undefined. -/
noncomputable def bbUpperOf (prices : List ℚ) : List (Option ℝ) :=
  (List.range prices.length).map fun i =>
    match (rollingMean 20 prices).getD i none, (rollingStd 20 prices).getD i none with
    | some m, some s => some ((m : ℝ) + s * 2)
    | _, _ => none

/-- Bollinger lower band: sma_20 - 2 rolling standard deviations. -/
noncomputable def bbLowerOf (prices : List ℚ) : List (Option ℝ) :=
  (List.range prices.length).map fun i =>
    match (rollingMean 20 prices).getD i none, (rollingStd 20 prices).getD i none with
    | some m, some s => some ((m : ℝ) - s * 2)
    | _, _ => none

/-- The record returned by get_technical_indicators (src/utils/data.py
lines 317-334); NaN entries are none, and the current snapshot keeps the
last entry of the rsi and macd arrays (none when the array is empty or
the last entry is NaN). -/
structure IndicatorSet where
  sma_20 : List (Option ℚ)
  sma_50 : List (Option ℚ)
  ema_12 : List ℚ
  ema_26 : List ℚ
  macd_line : List ℚ
  macd_signal : List ℚ
  macd_histogram : List ℚ
  rsi : List (Option ℚ)
  bb_std : List (Option ℝ)
  bb_upper : List (Option ℝ)
  bb_middle : List (Option ℚ)
  bb_lower : List (Option ℝ)
  current_rsi : Option ℚ
  current_macd : Option ℚ
  current_bb_position : Option ℝ

/-- get_technical_indicators (src/utils/data.py lines 278-338): empty
result below 50 points, otherwise the full indicator set. -/
noncomputable def get_technical_indicators (df : List (PricePoint ℚ)) : Option IndicatorSet :=
  if df.length < 50 then none
  else
    some
      { sma_20 := rollingMean 20 (pricesOf df)
        sma_50 := rollingMean 50 (pricesOf df)
        ema_12 := emaAdjusted 12 (pricesOf df)
        ema_26 := emaAdjusted 26 (pricesOf df)
        macd_line := macdLineOf (pricesOf df)
        macd_signal := macdSignalOf (pricesOf df)
        macd_histogram := macdHistogramOf (pricesOf df)
        rsi := rsiList (pricesOf df)
        bb_std := rollingStd 20 (pricesOf df)
        bb_upper := bbUpperOf (pricesOf df)
        bb_middle := rollingMean 20 (pricesOf df)
        bb_lower := bbLowerOf (pricesOf df)
        current_rsi := (rsiList (pricesOf df)).getLastD none
        current_macd := (macdLineOf (pricesOf df)).getLast?
        current_bb_position :=
          match (bbLowerOf (pricesOf df)).getLastD none,
              (bbUpperOf (pricesOf df)).getLastD none with
          | some lo, some hi =>
            some ((((pricesOf df).getLastD 0 : ℚ) - lo) / (hi - lo))
          | _, _ => none }

/-- Length of a rolling mean matches its input column. -/
theorem rollingMean_length (w : ℕ) (l : List ℚ) :
    (rollingMean w l).length = l.length := by
  simp [rollingMean]

/-- Definedness pattern of a rolling mean: a value exists exactly from
position w - 1 onwards. -/
theorem rollingMean_isSome (w : ℕ) (l : List ℚ) (i : ℕ) (hi : i < l.length) :
    ((rollingMean w l).getD i none).isSome ↔ w ≤ i + 1 := by
  rw [rollingMean, getD_map_range _ hi]
  by_cases h : i + 1 < w
  · rw [if_pos h]
    simp only [Option.isSome_none, Bool.false_eq_true, false_iff]
    omega
  · rw [if_neg h]
    simp only [Option.isSome_some, true_iff]
    omega

/-- Definedness pattern of a rolling standard deviation. -/
theorem rollingStd_isSome (w : ℕ) (l : List ℚ) (i : ℕ) (hi : i < l.length) :
    ((rollingStd w l).getD i none).isSome ↔ w ≤ i + 1 := by
  rw [rollingStd, getD_map_range _ hi]
  by_cases h : i + 1 < w
  · rw [if_pos h]
    simp only [Option.isSome_none, Bool.false_eq_true, false_iff]
    omega
  · rw [if_neg h]
    simp only [Option.isSome_some, true_iff]
    omega

/-- A defined rolling mean of a columnwise-nonnegative column is
nonnegative. -/
theorem rollingMean_some_nonneg {w : ℕ} {l : List ℚ}
    (hl : ∀ x ∈ l, 0 ≤ x) {i : ℕ} {g : ℚ}
    (hg : (rollingMean w l).getD i none = some g) : 0 ≤ g := by
  by_cases hi : i < l.length
  · rw [rollingMean, getD_map_range _ hi] at hg
    by_cases hw : i + 1 < w
    · rw [if_pos hw] at hg
      exact absurd hg (by simp)
    · rw [if_neg hw] at hg
      have hgv : g = ((l.drop (i + 1 - w)).take w).sum / w :=
        (Option.some.inj hg).symm
      rw [hgv]
      apply div_nonneg
      · apply List.sum_nonneg
        intro x hx
        exact hl x (List.mem_of_mem_drop (List.mem_of_mem_take hx))
      · exact_mod_cast Nat.zero_le w
  · rw [rollingMean, List.getD_eq_default] at hg
    · exact absurd hg (by simp)
    · simpa using Nat.le_of_not_lt hi

/-- Claim C7: below 50 points the indicator calculator returns the empty
result (none, not an error); at 50 or more points every rolling array is
as long as the input (the rsi array one shorter, matching the diff array)
and is undefined exactly on its first window - 1 positions, so sma_50
first becomes defined at index 49, sma_20 and the Bollinger deviation at
index 19, and rsi at index 13 of the diff array. -/
theorem C7_indicators (df : List (PricePoint ℚ)) :
    (get_technical_indicators df = none ↔ df.length < 50) ∧
    (∀ ind, get_technical_indicators df = some ind →
      ind.sma_20.length = df.length ∧
      ind.sma_50.length = df.length ∧
      ind.rsi.length = df.length - 1 ∧
      ind.bb_std.length = df.length ∧
      (∀ i, i < df.length → (((ind.sma_20.getD i none).isSome) ↔ 19 ≤ i)) ∧
      (∀ i, i < df.length → (((ind.sma_50.getD i none).isSome) ↔ 49 ≤ i)) ∧
      (∀ i, i < df.length → (((ind.bb_std.getD i none).isSome) ↔ 19 ≤ i)) ∧
      (∀ i, i < df.length - 1 → (((ind.rsi.getD i none).isSome) ↔ 13 ≤ i))) := by
  have hplen : (pricesOf df).length = df.length := by simp [pricesOf]
  constructor
  · by_cases h : df.length < 50
    · rw [get_technical_indicators, if_pos h]
      simp [h]
    · rw [get_technical_indicators, if_neg h]
      simp [h]
  · intro ind hind
    by_cases h : df.length < 50
    · rw [get_technical_indicators, if_pos h] at hind
      exact absurd hind (by simp)
    · rw [get_technical_indicators, if_neg h] at hind
      obtain rfl := (Option.some.inj hind).symm
      have hdlen : (priceDiffs (pricesOf df)).length = df.length - 1 := by
        simp [priceDiffs, hplen]
      refine ⟨by simp [rollingMean_length, hplen], by simp [rollingMean_length, hplen],
        by simp [rsiList, hdlen], by simp [rollingStd, hplen], ?_, ?_, ?_, ?_⟩
      · intro i hi
        dsimp only
        rw [rollingMean_isSome 20 (pricesOf df) i (by omega)]
        omega
      · intro i hi
        dsimp only
        rw [rollingMean_isSome 50 (pricesOf df) i (by omega)]
        omega
      · intro i hi
        dsimp only
        rw [rollingStd_isSome 20 (pricesOf df) i (by omega)]
        omega
      · intro i hi
        have hid : i < (priceDiffs (pricesOf df)).length := by
          rw [hdlen]
          omega
        have hglen : (gainsOf (pricesOf df)).length = (priceDiffs (pricesOf df)).length := by
          simp [gainsOf]
        have hGs := rollingMean_isSome 14 (gainsOf (pricesOf df)) i (by omega)
        have hllen : (lossesOf (pricesOf df)).length = (priceDiffs (pricesOf df)).length := by
          simp [lossesOf]
        have hLs := rollingMean_isSome 14 (lossesOf (pricesOf df)) i (by omega)
        dsimp only
        rw [rsiList, getD_map_range _ hid]
        rcases hG : (rollingMean 14 (gainsOf (pricesOf df))).getD i none with _ | g
        · rw [hG] at hGs
          simp only [Option.isSome_none, Bool.false_eq_true, false_iff] at hGs
          dsimp only
          simp only [Option.isSome_none, Bool.false_eq_true, false_iff]
          omega
        · rcases hL : (rollingMean 14 (lossesOf (pricesOf df))).getD i none with _ | lv
          · rw [hG] at hGs
            rw [hL] at hLs
            simp only [Option.isSome_some, true_iff] at hGs
            simp only [Option.isSome_none, Bool.false_eq_true, false_iff] at hLs
            omega
          · rw [hG] at hGs
            simp only [Option.isSome_some, true_iff] at hGs
            dsimp only
            simp only [Option.isSome_some, true_iff]
            omega

/-- Constant 50-row frame with price 1, used as the indicator witness. -/
def df50 : List (PricePoint ℚ) := List.replicate 50 { dummyQ with price := 1 }

/-- Witness for C7_indicators: at the 50-row constant frame the result is
present and sma_50 is undefined at 48 and defined at 49. -/
theorem C7_indicators_witness :
    ∃ ind, get_technical_indicators df50 = some ind ∧
      (ind.sma_50.getD 49 none).isSome = true ∧
      ind.sma_50.getD 48 none = none := by
  have hlen : df50.length = 50 := by simp [df50]
  have h1 := (C7_indicators df50).1
  have h2 := (C7_indicators df50).2
  have hne : get_technical_indicators df50 ≠ none := by
    intro hn
    rw [h1, hlen] at hn
    omega
  rcases hopt : get_technical_indicators df50 with _ | ind
  · exact absurd hopt hne
  · obtain ⟨-, -, -, -, -, hs50, -, -⟩ := h2 ind hopt
    refine ⟨ind, rfl, ?_, ?_⟩
    · rw [hs50 49 (by omega)]
    · have := hs50 48 (by omega)
      rcases hx : ind.sma_50.getD 48 none with _ | v
      · rfl
      · rw [hx] at this
        simp only [Option.isSome_some, true_iff] at this
        omega

/-- Entries of the gains array are nonnegative. -/
theorem gainsOf_nonneg (prices : List ℚ) : ∀ x ∈ gainsOf prices, 0 ≤ x := by
  intro x hx
  rw [gainsOf] at hx
  obtain ⟨d, -, rfl⟩ := List.mem_map.mp hx
  by_cases h : 0 < d
  · rw [if_pos h]
    exact le_of_lt h
  · rw [if_neg h]

/-- Entries of the losses array are nonnegative. -/
theorem lossesOf_nonneg (prices : List ℚ) : ∀ x ∈ lossesOf prices, 0 ≤ x := by
  intro x hx
  rw [lossesOf] at hx
  obtain ⟨d, -, rfl⟩ := List.mem_map.mp hx
  by_cases h : d < 0
  · rw [if_pos h]
    linarith
  · rw [if_neg h]

/-- Claim C8: every defined RSI value produced by the indicator calculator
lies in [0, 100]; the 1e-10 epsilon keeps the rs denominator strictly
positive even when the window holds no losses, so no division error can
occur. -/
theorem C8_rsi_bounds (df : List (PricePoint ℚ)) (v : ℚ)
    (hv : some v ∈ (get_technical_indicators df).elim [] IndicatorSet.rsi) :
    0 ≤ v ∧ v ≤ 100 := by
  by_cases h : df.length < 50
  · rw [get_technical_indicators, if_pos h] at hv
    simp at hv
  · rw [get_technical_indicators, if_neg h] at hv
    dsimp only [Option.elim] at hv
    rw [rsiList] at hv
    obtain ⟨i, -, heq⟩ := List.mem_map.mp hv
    rcases hG : (rollingMean 14 (gainsOf (pricesOf df))).getD i none with _ | g
    · rw [hG] at heq
      simp at heq
    · rcases hL : (rollingMean 14 (lossesOf (pricesOf df))).getD i none with _ | lv
      · rw [hG, hL] at heq
        simp at heq
      · rw [hG, hL] at heq
        dsimp only at heq
        have hveq : v = 100 - 100 / (1 + g / (lv + 1 / 10000000000)) :=
          (Option.some.inj heq).symm
        have hg0 : 0 ≤ g := rollingMean_some_nonneg (gainsOf_nonneg (pricesOf df)) hG
        have hl0 : 0 ≤ lv := rollingMean_some_nonneg (lossesOf_nonneg (pricesOf df)) hL
        have hden : (0:ℚ) < lv + 1 / 10000000000 := by
          have heps : (0:ℚ) < 1 / 10000000000 := by norm_num
          linarith
        have hrs : 0 ≤ g / (lv + 1 / 10000000000) := div_nonneg hg0 hden.le
        have h1 : (0:ℚ) < 1 + g / (lv + 1 / 10000000000) := by linarith
        have hfpos : (0:ℚ) < 100 / (1 + g / (lv + 1 / 10000000000)) :=
          div_pos (by norm_num) h1
        have hfle : 100 / (1 + g / (lv + 1 / 10000000000)) ≤ 100 := by
          rw [div_le_iff₀ h1]
          nlinarith
        constructor
        · rw [hveq]
          linarith
        · rw [hveq]
          linarith

/-- Witness for C8_rsi_bounds: on the 50-row constant frame the RSI value
at index 13 of the diff array is defined and equals 0, inside [0, 100]. -/
theorem C8_rsi_bounds_witness :
    (some (0:ℚ) ∈ (get_technical_indicators df50).elim [] IndicatorSet.rsi) ∧
      ((0:ℚ) ≤ 0 ∧ (0:ℚ) ≤ 100) := by
  have hprices : pricesOf df50 = List.replicate 50 (1:ℚ) := by
    simp [pricesOf, df50]
  have hdiffs : priceDiffs (List.replicate 50 (1:ℚ)) = List.replicate 49 0 := by
    apply List.eq_replicate_iff.mpr
    constructor
    · simp [priceDiffs]
    · intro b hb
      rw [priceDiffs] at hb
      obtain ⟨i, hi, rfl⟩ := List.mem_map.mp hb
      rw [List.mem_range] at hi
      simp only [List.length_replicate] at hi
      have h1 : (List.replicate 50 (1:ℚ)).getD (i + 1) 0 = 1 := by
        rw [List.getD_eq_getElem _ _ (by simp only [List.length_replicate]; omega)]
        simp only [List.getElem_replicate]
      have h2 : (List.replicate 50 (1:ℚ)).getD i 0 = 1 := by
        rw [List.getD_eq_getElem _ _ (by simp only [List.length_replicate]; omega)]
        simp only [List.getElem_replicate]
      rw [h1, h2, sub_self]
  have hgains : gainsOf (List.replicate 50 (1:ℚ)) = List.replicate 49 0 := by
    rw [gainsOf, hdiffs]
    simp
  have hlosses : lossesOf (List.replicate 50 (1:ℚ)) = List.replicate 49 0 := by
    rw [lossesOf, hdiffs]
    simp
  have hrm : (rollingMean 14 (List.replicate 49 (0:ℚ))).getD 13 none = some 0 := by
    rw [rollingMean, getD_map_range _ (by simp)]
    rw [if_neg (by norm_num)]
    norm_num [List.sum_replicate]
  have hval : (rsiList (pricesOf df50)).getD 13 none = some 0 := by
    rw [hprices, rsiList, getD_map_range _ (by rw [hdiffs]; simp)]
    rw [hgains, hlosses, hrm]
    dsimp only
    norm_num
  have hlt : 13 < (rsiList (pricesOf df50)).length := by
    rw [hprices]
    rw [rsiList]
    rw [hdiffs]
    simp
  have hmem : some (0:ℚ) ∈ rsiList (pricesOf df50) := by
    have hg := List.getD_eq_getElem (rsiList (pricesOf df50)) none hlt
    rw [hval] at hg
    exact hg ▸ List.getElem_mem hlt
  have hmem2 : some (0:ℚ) ∈ (get_technical_indicators df50).elim [] IndicatorSet.rsi := by
    rw [get_technical_indicators, if_neg (by simp [df50])]
    dsimp only [Option.elim]
    exact hmem
  exact ⟨hmem2, C8_rsi_bounds df50 0 hmem2⟩

/-! ## Synthetic series generator (src/utils/data.py, fetch_kaspa_price_data) -/

/-- Model of the numpy PRNG streams consumed after np.random.seed(42):
normalDraw for np.random.normal(0, 0.02, n) (the price_changes block),
lognormalDraw for np.random.lognormal(0, 0.5, n) (volume multipliers),
uniformHighDraw and uniformLowDraw for the two np.random.uniform(0, 0.02, n)
blocks of the high and low bands.  With the seed fixed the draws are a
fixed function of position for a given request, so determinism questions
reduce to the streams being the same functions on both calls; uniform
draws are always nonnegative, which the theorems take as a hypothesis. -/
structure NoiseStreams where
  normalDraw : ℕ → ℝ
  lognormalDraw : ℕ → ℝ
  uniformHighDraw : ℕ → ℝ
  uniformLowDraw : ℕ → ℝ

/-- Row count of pd.date_range(now - days_back days, now, freq h): one
point per hour, both endpoints included. -/
def n_points (days_back : ℕ) : ℕ := 24 * days_back + 1

/-- np.linspace(0, 0.01, n) at position i (a single-point range is the
start value 0). -/
noncomputable def trend (n i : ℕ) : ℝ :=
  if n ≤ 1 then 0 else 0.01 * i / ((n : ℝ) - 1)

/-- Daily cycle term 0.003 * sin(i / 24 * 2 pi). -/
noncomputable def cyclical (i : ℕ) : ℝ :=
  0.003 * Real.sin ((i : ℝ) / 24 * (2 * Real.pi))

/-- Weekly cycle term 0.005 * sin(i / 168 * 2 pi). -/
noncomputable def weekly_cycle (i : ℕ) : ℝ :=
  0.005 * Real.sin ((i : ℝ) / (24 * 7) * (2 * Real.pi))

/-- np.cumsum(price_changes + trend + cyclical + weekly_cycle) at i. -/
noncomputable def cumulative_changes (g : NoiseStreams) (n i : ℕ) : ℝ :=
  ∑ j ∈ Finset.range (i + 1),
    (g.normalDraw j + trend n j + cyclical j + weekly_cycle j)

/-- Price at position i: 0.025 * exp(cumulative / 10), floored at 0.001
by np.maximum. -/
noncomputable def gen_price (g : NoiseStreams) (n i : ℕ) : ℝ :=
  max (0.025 * Real.exp (cumulative_changes g n i / 10)) 0.001

/-- np.abs(np.diff(np.concatenate([[0], price_changes]))) at i. -/
noncomputable def gen_volatility (g : NoiseStreams) (i : ℕ) : ℝ :=
  |g.normalDraw i - (if i = 0 then 0 else g.normalDraw (i - 1))|

/-- Volume at i: 1000000 * (1 + 2 * volatility) * lognormal multiplier. -/
noncomputable def gen_volume (g : NoiseStreams) (i : ℕ) : ℝ :=
  1000000 * (1 + 2 * gen_volatility g i) * g.lognormalDraw i

/-- Row i of the generated frame.  The timestamp is hourly, ending at the
wall-clock instant now; open is np.roll(prices, 1) with the first row then
patched to its own close. -/
noncomputable def gen_row (g : NoiseStreams) (days_back : ℕ) (now : ℤ) (i : ℕ) :
    PricePoint ℝ :=
  { timestamp := now - 24 * days_back + i
    price := gen_price g (n_points days_back) i
    volume := gen_volume g i
    high := gen_price g (n_points days_back) i * (1 + g.uniformHighDraw i)
    low := gen_price g (n_points days_back) i * (1 - g.uniformLowDraw i)
    open_ := if i = 0 then gen_price g (n_points days_back) 0
      else gen_price g (n_points days_back) (i - 1)
    close := gen_price g (n_points days_back) i }

/-- fetch_kaspa_price_data (src/utils/data.py lines 24-79). -/
noncomputable def fetch_kaspa_price_data (g : NoiseStreams) (days_back : ℕ)
    (now : ℤ) : List (PricePoint ℝ) :=
  (List.range (n_points days_back)).map (gen_row g days_back now)

/-- The six numeric columns of a row, everything except the timestamp. -/
def numericColumns (p : PricePoint ℝ) : ℝ × ℝ × ℝ × ℝ × ℝ × ℝ :=
  (p.price, p.volume, p.high, p.low, p.open_, p.close)

/-- Zero-noise streams (unit lognormal multiplier), a concrete stream
instance for witnesses. -/
noncomputable def zeroNoise : NoiseStreams :=
  ⟨fun _ => 0, fun _ => 1, fun _ => 0, fun _ => 0⟩

/-- Streams with a single large negative normal draw at position 1 and
zero band draws, exhibiting a price drop from row 0 to row 1. -/
noncomputable def dropNoise : NoiseStreams :=
  ⟨fun i => if i = 1 then -10 else 0, fun _ => 1, fun _ => 0, fun _ => 0⟩

/-! ## Theorems for claims C3 and C4 -/

/-- Claim C3, counterexample: with the same lookback length 1 but two
different evaluation instants (hour 0 and hour 24), the generated frames
differ — already their first timestamps differ — so the output is not
bit-identical independent of when each call is made. -/
theorem C3_counterexample :
    fetch_kaspa_price_data zeroNoise 1 0 ≠ fetch_kaspa_price_data zeroNoise 1 24 := by
  intro h
  have h0 : ((fetch_kaspa_price_data zeroNoise 1 0).getD 0 dummyR).timestamp =
      ((fetch_kaspa_price_data zeroNoise 1 24).getD 0 dummyR).timestamp := by
    rw [h]
  rw [fetch_kaspa_price_data, fetch_kaspa_price_data,
    getD_map_range _ (by norm_num [n_points]) dummyR,
    getD_map_range _ (by norm_num [n_points]) dummyR] at h0
  dsimp only [gen_row] at h0
  norm_num at h0

/-- Claim C3 (amended): the numeric columns (price, volume, high, low,
open, close) of the generated frame are a function of the lookback length
alone — two calls with the same length agree on them at every row whatever
the two evaluation instants — and the timestamp column is the hourly range
ending at the evaluation instant, which is what varies between calls. -/
theorem C3_determinism (g : NoiseStreams) (days_back : ℕ) (now1 now2 : ℤ) :
    ((fetch_kaspa_price_data g days_back now1).map numericColumns =
      (fetch_kaspa_price_data g days_back now2).map numericColumns) ∧
    ((fetch_kaspa_price_data g days_back now1).map (·.timestamp) =
      (List.range (n_points days_back)).map
        (fun i : ℕ => now1 - 24 * (days_back : ℤ) + (i : ℤ))) := by
  constructor
  · rw [fetch_kaspa_price_data, fetch_kaspa_price_data, List.map_map, List.map_map]
    apply List.map_congr_left
    intro i hi
    dsimp only [Function.comp, numericColumns, gen_row]
  · rw [fetch_kaspa_price_data, List.map_map]
    apply List.map_congr_left
    intro i hi
    dsimp only [Function.comp, gen_row]

/-- Claim C4 (amended): every generated price sits on or above the 0.001
floor, hence is strictly positive; and with nonnegative uniform band draws
(np.random.uniform(0, 0.02) draws always are), high is at least close and
low is at most close.  The high vs open and low vs open comparisons of the
original claim are refuted by C4_counterexample. -/
theorem C4_invariants (g : NoiseStreams) (days_back : ℕ) (now : ℤ)
    (hH : ∀ i, 0 ≤ g.uniformHighDraw i) (hL : ∀ i, 0 ≤ g.uniformLowDraw i) :
    ∀ p ∈ fetch_kaspa_price_data g days_back now,
      0 < p.price ∧ p.close ≤ p.high ∧ p.low ≤ p.close := by
  intro p hp
  rw [fetch_kaspa_price_data] at hp
  obtain ⟨i, -, rfl⟩ := List.mem_map.mp hp
  have hpos : (0:ℝ) < gen_price g (n_points days_back) i := by
    rw [gen_price]
    exact lt_max_of_lt_right (by norm_num)
  refine ⟨hpos, ?_, ?_⟩
  · dsimp only [gen_row]
    nlinarith [hH i, hpos]
  · dsimp only [gen_row]
    nlinarith [hL i, hpos]

/-- Witness for C4_invariants at the zero-noise streams, lookback 0. -/
theorem C4_invariants_witness :
    (∀ i, (0:ℝ) ≤ zeroNoise.uniformHighDraw i) ∧
    (∀ i, (0:ℝ) ≤ zeroNoise.uniformLowDraw i) ∧
    (∀ p ∈ fetch_kaspa_price_data zeroNoise 0 0,
      0 < p.price ∧ p.close ≤ p.high ∧ p.low ≤ p.close) :=
  ⟨fun _ => le_refl 0, fun _ => le_refl 0,
    C4_invariants zeroNoise 0 0 (fun _ => le_refl 0) (fun _ => le_refl 0)⟩

/-- Claim C4, counterexample: under a legal noise stream whose normal draw
at position 1 is a large negative value while both uniform band draws are
zero, the generated row 1 has high strictly below open (the price dropped
by far more than the 2 percent band that high can add over close), so
high is not greater than or equal to max(open, close). -/
theorem C4_counterexample :
    ((fetch_kaspa_price_data dropNoise 1 0).getD 1 dummyR).high <
      ((fetch_kaspa_price_data dropNoise 1 0).getD 1 dummyR).open_ := by
  have hcyc : ∀ i, cyclical i ≤ 0.003 := by
    intro i
    rw [cyclical]
    nlinarith [Real.sin_le_one ((i : ℝ) / 24 * (2 * Real.pi))]
  have hweek : ∀ i, weekly_cycle i ≤ 0.005 := by
    intro i
    rw [weekly_cycle]
    nlinarith [Real.sin_le_one ((i : ℝ) / (24 * 7) * (2 * Real.pi))]
  have hc0 : cumulative_changes dropNoise 25 0 = 0 := by
    rw [cumulative_changes, Finset.sum_range_one]
    have h1 : dropNoise.normalDraw 0 = 0 := by norm_num [dropNoise]
    have h2 : trend 25 0 = 0 := by rw [trend]; norm_num
    have h3 : cyclical 0 = 0 := by rw [cyclical]; norm_num [Real.sin_zero]
    have h4 : weekly_cycle 0 = 0 := by rw [weekly_cycle]; norm_num [Real.sin_zero]
    rw [h1, h2, h3, h4]
    ring
  have hp0 : gen_price dropNoise 25 0 = 0.025 := by
    rw [gen_price, hc0]
    norm_num [Real.exp_zero]
  have hc1 : cumulative_changes dropNoise 25 1 < 0 := by
    have hstep : cumulative_changes dropNoise 25 1 =
        cumulative_changes dropNoise 25 0 +
          (dropNoise.normalDraw 1 + trend 25 1 + cyclical 1 + weekly_cycle 1) := by
      rw [cumulative_changes, cumulative_changes, Finset.sum_range_succ]
    rw [hstep, hc0]
    have hnd : dropNoise.normalDraw 1 = -10 := by norm_num [dropNoise]
    have htr : trend 25 1 = 0.01 / 24 := by rw [trend]; norm_num
    rw [hnd, htr]
    linarith [hcyc 1, hweek 1]
  have hp1 : gen_price dropNoise 25 1 < gen_price dropNoise 25 0 := by
    rw [hp0, gen_price]
    apply max_lt
    · have hexp : Real.exp (cumulative_changes dropNoise 25 1 / 10) < 1 :=
        Real.exp_lt_one_iff.mpr (by linarith)
      linarith
    · norm_num
  rw [fetch_kaspa_price_data, getD_map_range _ (by norm_num [n_points]) dummyR]
  dsimp only [gen_row]
  rw [if_neg one_ne_zero]
  have hu : dropNoise.uniformHighDraw 1 = 0 := rfl
  rw [hu]
  have hnp : n_points 1 = 25 := by norm_num [n_points]
  rw [hnp]
  calc gen_price dropNoise 25 1 * (1 + 0) = gen_price dropNoise 25 1 := by ring
    _ < gen_price dropNoise 25 0 := hp1

/-! ## Power-law models (src/utils/data.py, calculate_power_law_models) -/

/-- Parameter triple of one scenario curve a * (days / 365 + 0.1) ^ b + c. -/
structure CurveParams where
  a : ℝ
  b : ℝ
  c : ℝ

/-- Conservative scenario constants (0.01, 1.2, 0.008). -/
noncomputable def conservativeParams : CurveParams := ⟨0.01, 1.2, 0.008⟩

/-- Base scenario constants (0.015, 1.5, 0.01). -/
noncomputable def baseParams : CurveParams := ⟨0.015, 1.5, 0.01⟩

/-- Aggressive scenario constants (0.02, 1.8, 0.012). -/
noncomputable def aggressiveParams : CurveParams := ⟨0.02, 1.8, 0.012⟩

/-- Scenario curve value at a day offset. -/
noncomputable def curveValue (p : CurveParams) (days : ℚ) : ℝ :=
  p.a * ((days : ℝ) / 365 + 0.1) ^ p.b + p.c

/-- Minimum of the timestamp column (pandas .min() of a nonempty column),
defaulting to the head. -/
def colMinZ (l : List ℤ) : ℤ := l.foldr min (l.headD 0)

/-- The rows kept by the positive-price filter, each as the pair
(days_since_start, price).  As in the source, days_since_start is measured
from the minimum timestamp of the FULL frame (it is computed before the
filter); one hour is 1/24 day. -/
def filteredRows (df : List (PricePoint ℚ)) : List (ℚ × ℚ) :=
  (df.filter (fun p => 0 < p.price)).map
    (fun p => (((p.timestamp - colMinZ (df.map (·.timestamp)) : ℤ) : ℚ) / 24, p.price))

/-- Mean of a real column. -/
noncomputable def listMeanR (l : List ℝ) : ℝ := l.sum / l.length

/-- Centered dot product of two columns. -/
noncomputable def centeredDot (x y : List ℝ) : ℝ :=
  (((x.map (fun v => v - listMeanR x)).zip (y.map (fun w => w - listMeanR y))).map
    (fun p => p.1 * p.2)).sum

/-- Pearson correlation coefficient, np.corrcoef(x, y)[0, 1]. -/
noncomputable def pearson (x y : List ℝ) : ℝ :=
  centeredDot x y / (Real.sqrt (centeredDot x x) * Real.sqrt (centeredDot y y))

/-- The log-log correlation of the filtered series: log(price) against
log(days_since_start + 1). -/
noncomputable def loglogCorrelation (df : List (PricePoint ℚ)) : ℝ :=
  pearson ((filteredRows df).map (fun r => Real.log (r.2 : ℝ)))
    ((filteredRows df).map (fun r => Real.log ((r.1 : ℝ) + 1)))

/-- Result record of calculate_power_law_models (src/utils/data.py lines
237-253): the three curves sampled at every kept row, each curve's
deviation of the current price from its last value, and the correlation
statistics of the filtered series. -/
structure PowerLawResult where
  timestamps : List ℤ
  actual_prices : List ℚ
  conservative_model : List ℝ
  base_model : List ℝ
  aggressive_model : List ℝ
  conservative_deviation : ℝ
  base_deviation : ℝ
  aggressive_deviation : ℝ
  r_squared : ℝ
  correlation : ℝ
  data_points : ℕ

/-- calculate_power_law_models with the three scenario parameter triples
abstracted, so that independence of r_squared from them is statable. -/
noncomputable def calculate_power_law_models_with
    (p1 p2 p3 : CurveParams) (df : List (PricePoint ℚ)) : Option PowerLawResult :=
  if df.length < 100 then none
  else if (df.filter (fun p => 0 < p.price)).length < 50 then none
  else
    some
      { timestamps := (df.filter (fun p => 0 < p.price)).map (·.timestamp)
        actual_prices := (filteredRows df).map (·.2)
        conservative_model := (filteredRows df).map (fun r => curveValue p1 r.1)
        base_model := (filteredRows df).map (fun r => curveValue p2 r.1)
        aggressive_model := (filteredRows df).map (fun r => curveValue p3 r.1)
        conservative_deviation :=
          (((((filteredRows df).map (·.2)).getLastD 0 : ℚ) : ℝ) /
              (((filteredRows df).map (fun r => curveValue p1 r.1)).getLastD 0) - 1) * 100
        base_deviation :=
          (((((filteredRows df).map (·.2)).getLastD 0 : ℚ) : ℝ) /
              (((filteredRows df).map (fun r => curveValue p2 r.1)).getLastD 0) - 1) * 100
        aggressive_deviation :=
          (((((filteredRows df).map (·.2)).getLastD 0 : ℚ) : ℝ) /
              (((filteredRows df).map (fun r => curveValue p3 r.1)).getLastD 0) - 1) * 100
        r_squared := loglogCorrelation df ^ 2
        correlation := loglogCorrelation df
        data_points := (df.filter (fun p => 0 < p.price)).length }

/-- calculate_power_law_models (src/utils/data.py lines 192-257): the
abstracted version at the hard-coded scenario constants. -/
noncomputable def calculate_power_law_models (df : List (PricePoint ℚ)) :
    Option PowerLawResult :=
  calculate_power_law_models_with conservativeParams baseParams aggressiveParams df

/-! ## Theorems for claims C5 and C6 -/

/-- Claim C5: the power-law calculator returns the explicit empty result
exactly when the series has fewer than 100 raw points or fewer than 50
positive-price points; otherwise the result is complete — every curve and
column has exactly the filtered length recorded in data_points, never a
shorter one — so in particular any 40-point series maps to the empty
result and an accepted series never yields a truncated fit. -/
theorem C5_power_law_thresholds (df : List (PricePoint ℚ)) :
    (calculate_power_law_models df = none ↔
      (df.length < 100 ∨ (df.filter (fun p => 0 < p.price)).length < 50)) ∧
    (calculate_power_law_models df).elim True (fun r =>
      r.data_points = (df.filter (fun p => 0 < p.price)).length ∧
      r.actual_prices.length = r.data_points ∧
      r.conservative_model.length = r.data_points ∧
      r.base_model.length = r.data_points ∧
      r.aggressive_model.length = r.data_points ∧
      r.timestamps.length = r.data_points) := by
  rw [calculate_power_law_models, calculate_power_law_models_with]
  have hfl : (filteredRows df).length = (df.filter (fun p => 0 < p.price)).length := by
    simp [filteredRows]
  by_cases h1 : df.length < 100
  · rw [if_pos h1]
    simp [h1]
  · rw [if_neg h1]
    by_cases h2 : (df.filter (fun p => 0 < p.price)).length < 50
    · rw [if_pos h2]
      simp [h1, h2]
    · rw [if_neg h2]
      constructor
      · simp [h1, h2]
      · dsimp only [Option.elim]
        exact ⟨rfl, by simp [hfl], by simp [hfl], by simp [hfl], by simp [hfl], by simp⟩

/-- Claim C6: the reported r_squared of an accepted series equals the
square of the Pearson correlation between log(price) and
log(days_since_start + 1) over the filtered series (it is also the square
of the reported correlation), and it is unchanged under any alteration of
the three scenario curve parameter triples; calculate_power_law_models is
the instance of the abstracted calculator at the hard-coded triples. -/
theorem C6_r_squared_independence (p1 p2 p3 q1 q2 q3 : CurveParams)
    (df : List (PricePoint ℚ)) :
    (calculate_power_law_models df =
      calculate_power_law_models_with conservativeParams baseParams aggressiveParams df) ∧
    ((calculate_power_law_models_with p1 p2 p3 df).map (·.r_squared) =
      (calculate_power_law_models_with q1 q2 q3 df).map (·.r_squared)) ∧
    (calculate_power_law_models_with p1 p2 p3 df).elim True
      (fun r => r.r_squared = loglogCorrelation df ^ 2 ∧
        r.r_squared = r.correlation ^ 2) := by
  refine ⟨rfl, ?_, ?_⟩
  · rw [calculate_power_law_models_with, calculate_power_law_models_with]
    by_cases h1 : df.length < 100
    · rw [if_pos h1, if_pos h1]
    · rw [if_neg h1, if_neg h1]
      by_cases h2 : (df.filter (fun p => 0 < p.price)).length < 50
      · rw [if_pos h2, if_pos h2]
      · rw [if_neg h2, if_neg h2]
        rfl
  · rw [calculate_power_law_models_with]
    by_cases h1 : df.length < 100
    · rw [if_pos h1]
      exact trivial
    · rw [if_neg h1]
      by_cases h2 : (df.filter (fun p => 0 < p.price)).length < 50
      · rw [if_pos h2]
        exact trivial
      · rw [if_neg h2]
        exact ⟨rfl, rfl⟩

/-- Witness for C10_filter_data at the two-row frame and an unknown tier. -/
theorem C10_filter_data_witness :
    filter_data_by_subscription c1df "premium" = c1df ∧
      ("gold" ∉ ["public", "free", "premium", "pro"]) ∧
      filter_data_by_subscription c1df "gold" = c1df.drop (c1df.length - 168) := by
  obtain ⟨hprem, -, -, -, -, -, hunk, -⟩ := C10_filter_data c1df
  exact ⟨hprem, by decide, hunk "gold" (by decide)⟩
